import Mathlib

/-!
# Shallow embedding of the object-detection backend

This file embeds the detection-to-identity pipeline of the repository
(`backend/detector.py`, `backend/tracker.py`, `backend/utils.py`,
`backend/main.py`) in Lean 4 and verifies the frozen claims about it.

Conventions of the embedding:
* Python floats are modelled as exact rationals (`ℚ`); Python ints as `ℤ`
  (or `ℕ` for the track-id counter, which stays positive).
* The Python `dict` `tracked_objects` (which preserves insertion order) is
  modelled as an association list `List (ℕ × Track)`; `dict[k] = v`
  updates the first occurrence of `k` in place or appends a fresh binding
  at the end, exactly like a Python dict.
* The impure clock read `int(time.time() * 1000)` becomes an explicit
  parameter `now : ℤ` of `ObjectTracker.update`.
* `math.sqrt` only ever feeds the two comparisons
  `distance < min_distance` and `distance < scaled_max_dist` in
  `_find_closest_match`.  Since `Real.sqrt` is strictly monotone on
  nonnegative arguments, these comparisons are represented exactly by
  comparisons on squared distances: `sqrt d₁ < sqrt d₂ ↔ d₁ < d₂` and,
  for `d ≥ 0`, `sqrt d < s ↔ 0 < s ∧ d < s ^ 2` (`sqrtLt` below).  The
  embedded tracker therefore computes the same branches and the same
  results as the source without leaving the rationals.
-/

/-- Python `str.capitalize()` (ASCII): first character upper-cased, all
remaining characters lower-cased.  Used by `format_spoken_text` in
`backend/utils.py`. -/
def pyCapitalize (s : String) : String :=
  match s.data with
  | [] => ""
  | c :: cs => String.mk (c.toUpper :: cs.map Char.toLower)

/-- Helper for `pyTitle`: walks the characters carrying whether the
previous character was alphabetic. -/
def titleGo : Bool → List Char → List Char
  | _, [] => []
  | prevAlpha, c :: cs =>
    (if c.isAlpha then (if prevAlpha then c.toLower else c.toUpper) else c)
      :: titleGo c.isAlpha cs

/-- Python `str.title()` (ASCII): every letter that follows a non-letter is
upper-cased, every other letter is lower-cased.  Used for the `label`
field built in `backend/detector.py` (`name.title()`). -/
def pyTitle (s : String) : String := String.mk (titleGo false s.data)

/-- Python `round(q, 1)` on exact rationals: round half to even at one
decimal place.  Used for `similarity = round(conf * 100, 1)` in
`backend/detector.py`. -/
def pyRound1 (q : ℚ) : ℚ :=
  let x : ℚ := q * 10
  let f : ℤ := ⌊x⌋
  let r : ℤ :=
    if x - f < 1/2 then f
    else if 1/2 < x - f then f + 1
    else if f % 2 = 0 then f else f + 1
  (r : ℚ) / 10

/-- The caller-supplied configuration map.  Fields are optional because the
Python code reads them with `config.get(key, default)`; the defaults are
applied at each use site, exactly as in the source (`min_similarity`
defaults to 70 in `ObjectTracker.update` and to 30 in
`ObjectDetector.detect_objects`; `speak_cooldown_ms` defaults to 2000). -/
structure Config where
  min_similarity : Option ℚ
  speak_cooldown_ms : Option ℤ
deriving Repr, DecidableEq

/-- A detection dictionary as built by `ObjectDetector.detect_objects`
(`backend/detector.py`, lines 102–113) and consumed by
`ObjectTracker.update`. -/
structure DetIn where
  bbox : List ℤ
  centroid : ℤ × ℤ
  color : String
  shape : String
  size : String
  label : String
  similarity : ℚ
  area : ℤ
  class_name : String
  confidence : ℚ
deriving Repr, DecidableEq

/-- The same detection after `ObjectTracker.update` has added the
`id`, `should_speak` and `spoken_text` keys (the source mutates the dict
in place; the embedding pairs the untouched input record with the three
added fields). -/
structure DetOut where
  det : DetIn
  id : ℕ
  should_speak : Bool
  spoken_text : String
deriving Repr, DecidableEq

/-- One entry of `ObjectTracker.tracked_objects`
(`id -> {centroid, last_seen_ms, last_spoken_ms, last_label}`). -/
structure Track where
  centroid : ℤ × ℤ
  last_seen_ms : ℤ
  last_spoken_ms : ℤ
  last_label : String
deriving Repr, DecidableEq

/-- The mutable state of one `ObjectTracker` instance
(`backend/tracker.py`, `__init__`). -/
structure TrackerState where
  max_distance : ℚ
  next_id : ℕ
  tracked_objects : List (ℕ × Track)
deriving Repr, DecidableEq

/-- First-occurrence lookup in an association list (Python `dict[k]`,
keys are unique in a real dict so first occurrence is the occurrence). -/
def alistGet? (l : List (ℕ × Track)) (k : ℕ) : Option Track :=
  match l with
  | [] => none
  | (k', v) :: t => if k' = k then some v else alistGet? t k

/-- Python `dict[k] = v`: update the binding of `k` in place if present,
otherwise append a fresh binding at the end (dicts preserve insertion
order). -/
def alistSet (l : List (ℕ × Track)) (k : ℕ) (v : Track) : List (ℕ × Track) :=
  match l with
  | [] => [(k, v)]
  | (k', v') :: t => if k' = k then (k, v) :: t else (k', v') :: alistSet t k v

/-- Squared Euclidean distance between two centroids.
`ObjectTracker._calculate_distance` returns
`math.sqrt((p1[0]-p2[0])**2 + (p1[1]-p2[1])**2)`; the embedding keeps the
radicand (see the file header for why this is exact). -/
def distSq (p q : ℤ × ℤ) : ℤ := (p.1 - q.1) ^ 2 + (p.2 - q.2) ^ 2

/-- Decides `Real.sqrt d < s` for a nonnegative radicand `d`:
`sqrt d < s ↔ 0 < s ∧ d < s ^ 2`. -/
def sqrtLt (d : ℤ) (s : ℚ) : Bool := decide (0 < s ∧ (d : ℚ) < s ^ 2)

/-- `format_spoken_text` (`backend/utils.py`, lines 255–269): returns only
`shape.capitalize()`, ignoring `color`, `size` and `similarity`. -/
def format_spoken_text (color shape size : String) (similarity : ℚ) : String :=
  pyCapitalize shape

namespace ObjectTracker

/-- `ObjectTracker(max_distance=60)` (`backend/tracker.py`, `__init__`). -/
def init (max_distance : ℚ := 60) : TrackerState :=
  { max_distance := max_distance, next_id := 1, tracked_objects := [] }

/-- `scaled_max_dist = self.max_distance * (frame_w / 640.0)`
(`backend/tracker.py`, line 48). -/
def scaledMaxDist (st : TrackerState) (frame_w : ℤ) : ℚ :=
  st.max_distance * ((frame_w : ℚ) / 640)

/-- One iteration of the loop in `_find_closest_match`: the accumulator is
the current `(closest_id, its track data, squared distance)`; `none`
plays the role of `closest_id = None, min_distance = inf`.  The source
condition `distance < min_distance and distance < scaled_max_dist` is
taken on squared distances. -/
def closestFold (c : ℤ × ℤ) (s : ℚ) (acc : Option (ℕ × Track × ℤ))
    (p : ℕ × Track) : Option (ℕ × Track × ℤ) :=
  let d := distSq c p.2.centroid
  match acc with
  | none => if sqrtLt d s then some (p.1, p.2, d) else none
  | some (bid, btr, bd) =>
      if d < bd ∧ sqrtLt d s then some (p.1, p.2, d) else some (bid, btr, bd)

/-- `ObjectTracker._find_closest_match` (`backend/tracker.py`, lines
30–60): scan **all** entries of `tracked_objects` in insertion order and
return the one at minimum distance among those strictly closer than
`scaled_max_dist`, or `None`.  The embedding also returns the matched
entry's data, which the source reads back immediately afterwards via
`self.tracked_objects[obj_id]` (same entry, since dict keys are unique). -/
def find_closest_match (st : TrackerState) (c : ℤ × ℤ) (frame_w : ℤ) :
    Option (ℕ × Track) :=
  (st.tracked_objects.foldl (closestFold c (scaledMaxDist st frame_w)) none).map
    (fun x => (x.1, x.2.1))

/-- The body of the `for detection in detections:` loop of
`ObjectTracker.update` (`backend/tracker.py`, lines 89–154).  The
accumulator carries the tracker state, the `matched_ids` set and the
`updated_detections` list. -/
def updateStep (frame_w : ℤ) (minSim : ℚ) (cooldown now : ℤ)
    (acc : TrackerState × List ℕ × List DetOut) (d : DetIn) :
    TrackerState × List ℕ × List DetOut :=
  let st := acc.1
  let matched := acc.2.1
  let outs := acc.2.2
  match find_closest_match st d.centroid frame_w with
  | some (obj_id, old) =>
      let should_speak : Bool :=
        decide (minSim ≤ d.similarity ∧
          (d.label ≠ old.last_label ∨ cooldown ≤ now - old.last_spoken_ms))
      let newTr : Track :=
        { centroid := d.centroid
          last_seen_ms := now
          last_spoken_ms := if should_speak then now else old.last_spoken_ms
          last_label := d.label }
      let st' : TrackerState :=
        { st with tracked_objects := alistSet st.tracked_objects obj_id newTr }
      let out : DetOut :=
        { det := d, id := obj_id, should_speak := should_speak
          spoken_text := format_spoken_text d.color d.shape d.size d.similarity }
      (st', obj_id :: matched, outs ++ [out])
  | none =>
      let obj_id := st.next_id
      let should_speak : Bool := decide (minSim ≤ d.similarity)
      let newTr : Track :=
        { centroid := d.centroid
          last_seen_ms := now
          last_spoken_ms := if should_speak then now else 0
          last_label := d.label }
      let st' : TrackerState :=
        { st with next_id := st.next_id + 1
                  tracked_objects := alistSet st.tracked_objects obj_id newTr }
      let out : DetOut :=
        { det := d, id := obj_id, should_speak := should_speak
          spoken_text := format_spoken_text d.color d.shape d.size d.similarity }
      (st', obj_id :: matched, outs ++ [out])

/-- The detection loop of `ObjectTracker.update`, folded over the supplied
detections in order. -/
def processDetections (st : TrackerState) (dets : List DetIn) (frame_w : ℤ)
    (minSim : ℚ) (cooldown now : ℤ) : TrackerState × List ℕ × List DetOut :=
  dets.foldl (updateStep frame_w minSim cooldown now) (st, [], [])

/-- Track expiry (`backend/tracker.py`, lines 156–167): every entry whose
id is not in `matched_ids` and whose `current_time_ms - last_seen_ms`
exceeds 1000 ms is deleted; deletion by key keeps the order of the
remaining entries, i.e. it is a filter on the kept entries. -/
def keepTrack (matched : List ℕ) (now : ℤ) (p : ℕ × Track) : Bool :=
  decide (p.1 ∈ matched ∨ now - p.2.last_seen_ms ≤ 1000)

/-- The two loops of `backend/tracker.py`, lines 156–167, as a filter. -/
def expire (st : TrackerState) (matched : List ℕ) (now : ℤ) : TrackerState :=
  { st with tracked_objects := st.tracked_objects.filter (keepTrack matched now) }

/-- `ObjectTracker.update` (`backend/tracker.py`, lines 62–169): read the
configuration with its defaults, run the detection loop, then expire
stale tracks.  Returns the new state and `updated_detections`. -/
def update (st : TrackerState) (dets : List DetIn) (frame_w frame_h : ℤ)
    (cfg : Config) (now : ℤ) : TrackerState × List DetOut :=
  let minSim := cfg.min_similarity.getD 70
  let cooldown := cfg.speak_cooldown_ms.getD 2000
  let r := processDetections st dets frame_w minSim cooldown now
  (expire r.1 r.2.1 now, r.2.2)

/-- `ObjectTracker.reset` (`backend/tracker.py`, lines 171–174). -/
def reset (st : TrackerState) : TrackerState :=
  { st with next_id := 1, tracked_objects := [] }

end ObjectTracker

namespace ObjectDetector

/-- `min_conf = max(0.30, config.get("min_similarity", 30) / 100.0)`
(`backend/detector.py`, line 54). -/
def min_conf (cfg : Config) : ℚ := max (3/10) (cfg.min_similarity.getD 30 / 100)

/-- One row of the model's post-processed prediction arrays right before
the confidence mask in `detect_objects`: its box, its best-class
confidence and that class's id. -/
structure RawPred where
  box : List ℚ
  conf : ℚ
  class_id : ℕ
deriving Repr, DecidableEq

/-- The filter step `mask = confs > min_conf` of
`ObjectDetector.detect_objects` (`backend/detector.py`, lines 74–75): the
parallel arrays are kept exactly where the confidence is **strictly
greater** than `min_conf`. -/
def confMask (preds : List RawPred) (cfg : Config) : List RawPred :=
  preds.filter (fun p => decide (min_conf cfg < p.conf))

/-- The detection dictionary built for one kept index in
`ObjectDetector.detect_objects` (`backend/detector.py`, lines 102–113),
as a function of the scaled box `[x, y, bw, bh]`, the class `name` and
the confidence `conf`.  Python `//` is floor division (`Int.fdiv`). -/
def mkDetection (x y bw bh : ℤ) (name : String) (conf : ℚ) : DetIn :=
  { bbox := [x, y, bw, bh]
    centroid := (x + Int.fdiv bw 2, y + Int.fdiv bh 2)
    color := "unknown"
    shape := name
    size := "medium"
    label := pyTitle name
    similarity := pyRound1 (conf * 100)
    area := bw * bh
    class_name := name
    confidence := conf }

end ObjectDetector

/-- The state of the FastAPI process in `backend/main.py`: the single
module-level `tracker = ObjectTracker()` (line 28) shared by every
websocket connection.  (The `detector` global holds no cross-frame
mutable state that the tracker observes.) -/
structure ServerState where
  tracker : TrackerState
deriving Repr, DecidableEq

/-- Process start-up: `tracker = ObjectTracker()` (`backend/main.py`,
line 28). -/
def initServer : ServerState := { tracker := ObjectTracker.init 60 }

/-- What `websocket_endpoint` does when a client connects
(`backend/main.py`, lines 93–97): `tracker.reset()` on the module-level
tracker — whichever client connects, it is the one shared instance that
is reset. -/
def handleConnect (s : ServerState) : ServerState :=
  { s with tracker := ObjectTracker.reset s.tracker }

/-- One frame of the `websocket_endpoint` loop after detection
(`backend/main.py`, line 139): `tracker.update(...)` on the module-level
tracker, returning the annotated detections. -/
def handleFrame (s : ServerState) (dets : List DetIn) (frame_w frame_h : ℤ)
    (cfg : Config) (now : ℤ) : ServerState × List DetOut :=
  let r := ObjectTracker.update s.tracker dets frame_w frame_h cfg now
  ({ s with tracker := r.1 }, r.2)

/-! ## Test fixtures

Concrete detections built by `ObjectDetector.mkDetection`, used by the
closed counterexamples and witnesses below. -/

/-- A configuration map with every field absent (all defaults apply). -/
def cfg0 : Config := ⟨none, none⟩

/-- A person detected at centroid (100, 100) with confidence 0.85. -/
def dA : DetIn := ObjectDetector.mkDetection 80 80 40 40 "person" (85/100)

/-- A person detected at centroid (103, 102) with confidence 0.70. -/
def dB : DetIn := ObjectDetector.mkDetection 83 82 40 40 "person" (7/10)

/-- A cat detected at centroid (400, 400) with confidence 0.90. -/
def dFar : DetIn := ObjectDetector.mkDetection 380 380 40 40 "cat" (9/10)

/-- A pre-existing track at centroid (100, 100), last seen and last spoken
at 1000 ms. -/
def trW : Track := ⟨(100, 100), 1000, 1000, "Person"⟩

/-- A tracker state holding exactly the track `trW` under id 1, with the
id counter at 2. -/
def stW : TrackerState := ⟨60, 2, [(1, trW)]⟩

/-! ## Helper lemmas -/

theorem alistGet?_set_self (l : List (ℕ × Track)) (k : ℕ) (v : Track) :
    alistGet? (alistSet l k v) k = some v := by
  induction l with
  | nil => simp [alistSet, alistGet?]
  | cons p t ih =>
      by_cases h : p.1 = k
      · simp [alistSet, alistGet?, h]
      · simp only [alistSet]
        rw [if_neg h]
        simp only [alistGet?]
        rw [if_neg h]
        exact ih

theorem alistSet_mem {l : List (ℕ × Track)} {k : ℕ} {v : Track}
    {p : ℕ × Track} (h : p ∈ alistSet l k v) : p = (k, v) ∨ p ∈ l := by
  induction l with
  | nil => simpa [alistSet] using h
  | cons q t ih =>
      by_cases hq : q.1 = k
      · simp only [alistSet, if_pos hq, List.mem_cons] at h
        rcases h with h | h
        · exact Or.inl h
        · exact Or.inr (List.mem_cons_of_mem _ h)
      · simp only [alistSet, if_neg hq, List.mem_cons] at h
        rcases h with h | h
        · exact Or.inr (by simp [h])
        · rcases ih h with h' | h'
          · exact Or.inl h'
          · exact Or.inr (List.mem_cons_of_mem _ h')

theorem closestFold_none_eq (c : ℤ × ℤ) (s : ℚ) (p : ℕ × Track) :
    ObjectTracker.closestFold c s none p =
      if sqrtLt (distSq c p.2.centroid) s then some (p.1, p.2, distSq c p.2.centroid)
      else none := rfl

theorem closestFold_some_eq (c : ℤ × ℤ) (s : ℚ) (bid : ℕ) (btr : Track)
    (bd : ℤ) (p : ℕ × Track) :
    ObjectTracker.closestFold c s (some (bid, btr, bd)) p =
      if distSq c p.2.centroid < bd ∧ sqrtLt (distSq c p.2.centroid) s
      then some (p.1, p.2, distSq c p.2.centroid)
      else some (bid, btr, bd) := rfl

theorem foldl_closest_none (c : ℤ × ℤ) (s : ℚ) :
    ∀ (l : List (ℕ × Track)) (acc : Option (ℕ × Track × ℤ)),
      (l.foldl (ObjectTracker.closestFold c s) acc = none ↔
        acc = none ∧ ∀ p ∈ l, sqrtLt (distSq c p.2.centroid) s = false) := by
  intro l
  induction l with
  | nil => intro acc; simp
  | cons p t ih =>
      intro acc
      rw [List.foldl_cons, ih]
      cases acc with
      | none =>
          rw [closestFold_none_eq]
          by_cases h : sqrtLt (distSq c p.2.centroid) s
          · simp [h]
          · simp only [Bool.not_eq_true] at h
            simp [h]
      | some b =>
          obtain ⟨bid, btr, bd⟩ := b
          rw [closestFold_some_eq]
          split <;> simp

theorem foldl_closest_some (c : ℤ × ℤ) (s : ℚ) :
    ∀ (l : List (ℕ × Track)) (acc : Option (ℕ × Track × ℤ)),
      (∀ a b e, acc = some (a, b, e) →
        e = distSq c b.centroid ∧ sqrtLt e s = true) →
      ∀ (tid : ℕ) (tr : Track) (d : ℤ),
        l.foldl (ObjectTracker.closestFold c s) acc = some (tid, tr, d) →
        (d = distSq c tr.centroid ∧ sqrtLt d s = true) ∧
        (acc = some (tid, tr, d) ∨ (tid, tr) ∈ l) ∧
        (∀ p ∈ l, sqrtLt (distSq c p.2.centroid) s = true →
          d ≤ distSq c p.2.centroid) ∧
        (∀ a b e, acc = some (a, b, e) → d ≤ e) := by
  intro l
  induction l with
  | nil =>
      intro acc hacc tid tr d hfold
      simp only [List.foldl_nil] at hfold
      refine ⟨hacc _ _ _ hfold, Or.inl hfold, by simp, ?_⟩
      intro a b e hae
      rw [hfold] at hae
      cases hae
      exact le_refl d
  | cons p t ih =>
      intro acc hacc tid tr d hfold
      rw [List.foldl_cons] at hfold
      cases hA : acc with
      | none =>
          rw [hA, closestFold_none_eq] at hfold
          by_cases hin : sqrtLt (distSq c p.2.centroid) s
          · rw [if_pos hin] at hfold
            have hacc' : ∀ a b e,
                (some (p.1, p.2, distSq c p.2.centroid) :
                  Option (ℕ × Track × ℤ)) = some (a, b, e) →
                e = distSq c b.centroid ∧ sqrtLt e s = true := by
              intro a b e h
              cases h
              exact ⟨rfl, hin⟩
            obtain ⟨h1, h2, h3, h4⟩ := ih _ hacc' tid tr d hfold
            refine ⟨h1, ?_, ?_, ?_⟩
            · rcases h2 with h2 | h2
              · cases h2
                exact Or.inr (List.mem_cons_self _ _)
              · exact Or.inr (List.mem_cons_of_mem _ h2)
            · intro q hq hqin
              rcases List.mem_cons.mp hq with hq | hq
              · subst hq
                exact h4 _ _ _ rfl
              · exact h3 q hq hqin
            · intro a b e hae
              cases hae
          · rw [if_neg hin] at hfold
            obtain ⟨h1, h2, h3, h4⟩ := ih none (by intro a b e h; cases h) tid tr d hfold
            refine ⟨h1, ?_, ?_, ?_⟩
            · rcases h2 with h2 | h2
              · cases h2
              · exact Or.inr (List.mem_cons_of_mem _ h2)
            · intro q hq hqin
              rcases List.mem_cons.mp hq with hq | hq
              · subst hq
                exact absurd hqin hin
              · exact h3 q hq hqin
            · intro a b e hae
              cases hae
      | some b =>
          obtain ⟨bid, btr, bd⟩ := b
          obtain ⟨hbd, hbin⟩ := hacc bid btr bd hA
          rw [hA, closestFold_some_eq] at hfold
          by_cases hcond : distSq c p.2.centroid < bd ∧
              sqrtLt (distSq c p.2.centroid) s
          · rw [if_pos hcond] at hfold
            have hacc' : ∀ a b e,
                (some (p.1, p.2, distSq c p.2.centroid) :
                  Option (ℕ × Track × ℤ)) = some (a, b, e) →
                e = distSq c b.centroid ∧ sqrtLt e s = true := by
              intro a b e h
              cases h
              exact ⟨rfl, hcond.2⟩
            obtain ⟨h1, h2, h3, h4⟩ := ih _ hacc' tid tr d hfold
            refine ⟨h1, ?_, ?_, ?_⟩
            · rcases h2 with h2 | h2
              · cases h2
                exact Or.inr (List.mem_cons_self _ _)
              · exact Or.inr (List.mem_cons_of_mem _ h2)
            · intro q hq hqin
              rcases List.mem_cons.mp hq with hq | hq
              · subst hq
                exact h4 _ _ _ rfl
              · exact h3 q hq hqin
            · intro a b e hae
              cases hae
              exact le_trans (h4 _ _ _ rfl) (le_of_lt hcond.1)
          · rw [if_neg hcond] at hfold
            have hacc' : ∀ a b e,
                (some (bid, btr, bd) : Option (ℕ × Track × ℤ)) = some (a, b, e) →
                e = distSq c b.centroid ∧ sqrtLt e s = true := by
              intro a b e h
              cases h
              exact ⟨hbd, hbin⟩
            obtain ⟨h1, h2, h3, h4⟩ := ih _ hacc' tid tr d hfold
            refine ⟨h1, ?_, ?_, ?_⟩
            · rcases h2 with h2 | h2
              · exact Or.inl h2
              · exact Or.inr (List.mem_cons_of_mem _ h2)
            · intro q hq hqin
              rcases List.mem_cons.mp hq with hq | hq
              · subst hq
                have hble : bd ≤ distSq c q.2.centroid := by
                  by_contra hlt
                  push_neg at hlt
                  exact hcond ⟨hlt, hqin⟩
                exact le_trans (h4 _ _ _ rfl) hble
              · exact h3 q hq hqin
            · intro a b e hae
              cases hae
              exact h4 _ _ _ rfl

theorem find_closest_match_spec {st : TrackerState} {c : ℤ × ℤ} {w : ℤ}
    {tid : ℕ} {tr : Track}
    (h : ObjectTracker.find_closest_match st c w = some (tid, tr)) :
    (tid, tr) ∈ st.tracked_objects ∧
    sqrtLt (distSq c tr.centroid) (ObjectTracker.scaledMaxDist st w) = true ∧
    ∀ p ∈ st.tracked_objects,
      sqrtLt (distSq c p.2.centroid) (ObjectTracker.scaledMaxDist st w) = true →
      distSq c tr.centroid ≤ distSq c p.2.centroid := by
  unfold ObjectTracker.find_closest_match at h
  rw [Option.map_eq_some'] at h
  obtain ⟨⟨a, b, e⟩, hfold, hab⟩ := h
  cases hab
  obtain ⟨⟨h1, h2⟩, h3, h4, -⟩ :=
    foldl_closest_some c (ObjectTracker.scaledMaxDist st w) st.tracked_objects
      none (by intro a b e h; cases h) a b e hfold
  subst h1
  refine ⟨?_, h2, h4⟩
  rcases h3 with h3 | h3
  · cases h3
  · exact h3

theorem find_closest_match_none_iff (st : TrackerState) (c : ℤ × ℤ) (w : ℤ) :
    ObjectTracker.find_closest_match st c w = none ↔
      ∀ p ∈ st.tracked_objects,
        sqrtLt (distSq c p.2.centroid) (ObjectTracker.scaledMaxDist st w) = false := by
  unfold ObjectTracker.find_closest_match
  rw [Option.map_eq_none']
  rw [foldl_closest_none c (ObjectTracker.scaledMaxDist st w) st.tracked_objects none]
  simp

theorem updateStep_matched_eq (frame_w : ℤ) (minSim : ℚ) (cooldown now : ℤ)
    (st : TrackerState) (m : List ℕ) (os : List DetOut) (d : DetIn)
    (tid : ℕ) (tr : Track)
    (h : ObjectTracker.find_closest_match st d.centroid frame_w = some (tid, tr)) :
    ObjectTracker.updateStep frame_w minSim cooldown now (st, m, os) d =
      ({ st with tracked_objects := (alistSet st.tracked_objects tid (⟨d.centroid, now, if decide (minSim ≤ d.similarity ∧ (d.label ≠ tr.last_label ∨ cooldown ≤ now - tr.last_spoken_ms)) then now else tr.last_spoken_ms, d.label⟩ : Track)) },
        tid :: m,
        os ++ [⟨d, tid,
          decide (minSim ≤ d.similarity ∧
            (d.label ≠ tr.last_label ∨ cooldown ≤ now - tr.last_spoken_ms)),
          pyCapitalize d.shape⟩]) := by
  simp [ObjectTracker.updateStep, h, format_spoken_text]

theorem updateStep_new_eq (frame_w : ℤ) (minSim : ℚ) (cooldown now : ℤ)
    (st : TrackerState) (m : List ℕ) (os : List DetOut) (d : DetIn)
    (h : ObjectTracker.find_closest_match st d.centroid frame_w = none) :
    ObjectTracker.updateStep frame_w minSim cooldown now (st, m, os) d =
      ({ st with
          next_id := st.next_id + 1,
          tracked_objects := (alistSet st.tracked_objects st.next_id (⟨d.centroid, now, if decide (minSim ≤ d.similarity) then now else 0, d.label⟩ : Track)) },
        st.next_id :: m,
        os ++ [⟨d, st.next_id, decide (minSim ≤ d.similarity),
          pyCapitalize d.shape⟩]) := by
  simp [ObjectTracker.updateStep, h, format_spoken_text]

theorem find_single (st : TrackerState) (tid : ℕ) (tr : Track) (c : ℤ × ℤ)
    (w : ℤ) (hobj : st.tracked_objects = [(tid, tr)])
    (hr : sqrtLt (distSq c tr.centroid) (ObjectTracker.scaledMaxDist st w) = true) :
    ObjectTracker.find_closest_match st c w = some (tid, tr) := by
  unfold ObjectTracker.find_closest_match
  rw [hobj]
  simp [ObjectTracker.closestFold, hr]

theorem updateStep_out (frame_w : ℤ) (minSim : ℚ) (cooldown now : ℤ)
    (acc : TrackerState × List ℕ × List DetOut) (d : DetIn) :
    ∃ (oid : ℕ) (ss : Bool),
      (ObjectTracker.updateStep frame_w minSim cooldown now acc d).2.2 =
        acc.2.2 ++ [⟨d, oid, ss, pyCapitalize d.shape⟩] := by
  rcases h : ObjectTracker.find_closest_match acc.1 d.centroid frame_w with - | ⟨obj_id, old⟩ <;>
    simp [ObjectTracker.updateStep, h, format_spoken_text]

theorem processDetections_outs (frame_w : ℤ) (minSim : ℚ) (cooldown now : ℤ) :
    ∀ (dets : List DetIn) (acc : TrackerState × List ℕ × List DetOut),
      ∃ tail,
        (dets.foldl (ObjectTracker.updateStep frame_w minSim cooldown now) acc).2.2
          = acc.2.2 ++ tail ∧
        List.Forall₂ (fun d o => DetOut.det o = d ∧
          DetOut.spoken_text o = pyCapitalize d.shape) dets tail := by
  intro dets
  induction dets with
  | nil => intro acc; exact ⟨[], by simp, List.Forall₂.nil⟩
  | cons d ds ih =>
      intro acc
      rw [List.foldl_cons]
      obtain ⟨oid, ss, hout⟩ := updateStep_out frame_w minSim cooldown now acc d
      obtain ⟨tail, htail, hrel⟩ :=
        ih (ObjectTracker.updateStep frame_w minSim cooldown now acc d)
      refine ⟨⟨d, oid, ss, pyCapitalize d.shape⟩ :: tail, ?_, ?_⟩
      · rw [htail, hout, List.append_assoc]
        rfl
      · exact List.Forall₂.cons ⟨rfl, rfl⟩ hrel

theorem min_conf_cfg0 : ObjectDetector.min_conf cfg0 = 3/10 := by
  norm_num [ObjectDetector.min_conf, cfg0]

/-! ## Claims -/

/-- C3, counterexample: the filter step is `confs > min_conf`
(`backend/detector.py`, line 74), so a raw detection whose confidence is
exactly the effective threshold (0.30 with an absent `min_similarity`) is
**discarded**, contradicting the claim that boundary-equal detections are
kept. -/
theorem boundary_confidence_counterexample :
    ObjectDetector.min_conf cfg0 = 3/10 ∧
    ObjectDetector.confMask [⟨[], 3/10, 0⟩] cfg0 = [] := by
  refine ⟨min_conf_cfg0, ?_⟩
  simp only [ObjectDetector.confMask, min_conf_cfg0]
  norm_num [List.filter]

/-- C3, amended: the Suppressor's filter step keeps exactly the raw
detections whose confidence is **strictly greater** than the effective
minimum-confidence threshold; a detection whose confidence equals the
threshold exactly is discarded. -/
theorem conf_mask_strict_greater (preds : List ObjectDetector.RawPred)
    (cfg : Config) (p : ObjectDetector.RawPred) :
    p ∈ ObjectDetector.confMask preds cfg ↔
      p ∈ preds ∧ ObjectDetector.min_conf cfg < p.conf := by
  simp [ObjectDetector.confMask, List.mem_filter]

/-- C4: for every caller-supplied `min_similarity` value that is at most 30
— including an absent field (and hence also zero or negative values) —
the effective confidence threshold `min_conf` used for detection
filtering is exactly 0.30, never lower
(`backend/detector.py`, line 54). -/
theorem confidence_floor_spec (cfg : Config)
    (h : ∀ m ∈ cfg.min_similarity, m ≤ 30) :
    ObjectDetector.min_conf cfg = 3/10 := by
  unfold ObjectDetector.min_conf
  cases hm : cfg.min_similarity with
  | none => norm_num
  | some m =>
      have hm' : m ≤ 30 := h m (by simp [hm])
      simp only [Option.getD_some]
      rw [max_eq_left]
      linarith

/-- C4, witness: a caller-supplied `min_similarity` of −5 still yields the
0.30 floor. -/
theorem confidence_floor_spec_witness :
    ObjectDetector.min_conf ⟨some (-5), none⟩ = 3/10 :=
  confidence_floor_spec ⟨some (-5), none⟩
    (by intro m hm; simp only [Option.mem_def, Option.some_inj] at hm; norm_num [← hm])

/-- C1, counterexample: run `ObjectTracker.update` on a fresh tracker with
one detection (creating track 1), then call it again with two detections
near that track.  `_find_closest_match` scans **all** tracks, not only
the ones unmatched this frame, so both detections of the second frame are
matched to the same existing track 1 (`[1, 1]`) and no new track is
allocated (`next_id` stays 2) — matching is not one-to-one. -/
theorem one_to_one_matching_counterexample :
    (ObjectTracker.update (ObjectTracker.init 60) [dA] 640 480 cfg0
        1000).1.tracked_objects.map Prod.fst = [1] ∧
    (ObjectTracker.update
        (ObjectTracker.update (ObjectTracker.init 60) [dA] 640 480 cfg0 1000).1
        [dA, dB] 640 480 cfg0 1100).2.map DetOut.id = [1, 1] ∧
    (ObjectTracker.update
        (ObjectTracker.update (ObjectTracker.init 60) [dA] 640 480 cfg0 1000).1
        [dA, dB] 640 480 cfg0 1100).1.next_id = 2 := by
  refine ⟨?_, ?_, ?_⟩ <;>
    norm_num [ObjectTracker.update, ObjectTracker.processDetections,
      ObjectTracker.updateStep, ObjectTracker.find_closest_match,
      ObjectTracker.closestFold, ObjectTracker.scaledMaxDist,
      ObjectTracker.expire, ObjectTracker.keepTrack, ObjectTracker.init,
      alistSet, distSq, sqrtLt, cfg0, dA, dB, ObjectDetector.mkDetection,
      pyRound1]

/-- C1, amended: in `ObjectTracker.update` the per-detection nearest-track
search considers **every** existing track, including tracks already
matched in the current frame, so a single track can be claimed by several
detections of one frame: if the tracker holds exactly one track and both
supplied detections fall within the scaled matching radius (the second
relative to the first's centroid, which the first match wrote into the
track), both output detections carry that same track's id. -/
theorem nearest_track_search_ignores_matched
    (st : TrackerState) (tid : ℕ) (tr : Track) (d₁ d₂ : DetIn)
    (w h now : ℤ) (cfg : Config)
    (hst : st.tracked_objects = [(tid, tr)])
    (h₁ : sqrtLt (distSq d₁.centroid tr.centroid)
      (ObjectTracker.scaledMaxDist st w) = true)
    (h₂ : sqrtLt (distSq d₂.centroid d₁.centroid)
      (ObjectTracker.scaledMaxDist st w) = true) :
    (ObjectTracker.update st [d₁, d₂] w h cfg now).2.map DetOut.id =
      [tid, tid] := by
  have hfind₁ : ObjectTracker.find_closest_match st d₁.centroid w = some (tid, tr) :=
    find_single st tid tr d₁.centroid w hst h₁
  set ss₁ : Bool := decide ((cfg.min_similarity.getD 70) ≤ d₁.similarity ∧
    (d₁.label ≠ tr.last_label ∨
      (cfg.speak_cooldown_ms.getD 2000) ≤ now - tr.last_spoken_ms)) with hss₁
  set tr₁ : Track :=
    ⟨d₁.centroid, now, if ss₁ then now else tr.last_spoken_ms, d₁.label⟩ with htr₁
  set st₁ : TrackerState :=
    { st with tracked_objects := (alistSet st.tracked_objects tid tr₁) } with hst₁
  have hobj₁ : st₁.tracked_objects = [(tid, tr₁)] := by
    rw [hst₁]
    simp only []
    rw [hst]
    simp [alistSet]
  have hfind₂ : ObjectTracker.find_closest_match st₁ d₂.centroid w =
      some (tid, tr₁) := by
    refine find_single st₁ tid tr₁ d₂.centroid w hobj₁ ?_
    exact h₂
  simp only [ObjectTracker.update, ObjectTracker.processDetections,
    List.foldl_cons, List.foldl_nil]
  rw [updateStep_matched_eq w (cfg.min_similarity.getD 70)
    (cfg.speak_cooldown_ms.getD 2000) now st [] [] d₁ tid tr hfind₁]
  rw [show ({ st with tracked_objects := (alistSet st.tracked_objects tid (⟨d₁.centroid, now, if ss₁ then now else tr.last_spoken_ms, d₁.label⟩ : Track)) } : TrackerState) = st₁ from rfl]
  rw [← hss₁]
  simp only [List.nil_append]
  rw [updateStep_matched_eq w (cfg.min_similarity.getD 70)
    (cfg.speak_cooldown_ms.getD 2000) now st₁ [tid]
    [⟨d₁, tid, ss₁, pyCapitalize d₁.shape⟩] d₂ tid tr₁ hfind₂]
  simp

/-- C1, witness for the amended theorem: the tracker holds only track 1 at
(100, 100); detections at (100, 100) and (103, 102) are both within the
60-pixel scaled radius, and both are assigned id 1. -/
theorem nearest_track_search_ignores_matched_witness :
    (ObjectTracker.update stW [dA, dB] 640 480 cfg0 1100).2.map DetOut.id =
      [1, 1] :=
  nearest_track_search_ignores_matched stW 1 trW dA dB 640 480 1100 cfg0 rfl
    (by norm_num [sqrtLt, distSq, ObjectTracker.scaledMaxDist, stW, trW, dA,
      ObjectDetector.mkDetection, Int.fdiv])
    (by norm_num [sqrtLt, distSq, ObjectTracker.scaledMaxDist, stW, trW, dA,
      dB, ObjectDetector.mkDetection, Int.fdiv])

/-- C2, counterexample: `backend/main.py` holds a single module-level
`tracker = ObjectTracker()` (line 28) which `websocket_endpoint` uses for
every connection (lines 93–97 and 139).  Concretely: client A connects
and sends a frame, creating track 1 (`next_id` becomes 2); client B then
connects, and the reset of the one shared tracker erases A's track and
returns the id counter to 1; A's next detection — far away from anything
it saw before — is assigned the recycled id 1.  Tracker state (track map
and id counter) is therefore shared and mutated across concurrently
connected sessions, refuting the claimed structural isolation. -/
theorem tracker_isolation_counterexample :
    (handleFrame (handleConnect initServer) [dA] 640 480 cfg0 1000).2.map
      DetOut.id = [1] ∧
    (handleFrame (handleConnect initServer) [dA] 640 480 cfg0
      1000).1.tracker.next_id = 2 ∧
    (handleConnect (handleFrame (handleConnect initServer) [dA] 640 480 cfg0
      1000).1).tracker.tracked_objects = [] ∧
    (handleConnect (handleFrame (handleConnect initServer) [dA] 640 480 cfg0
      1000).1).tracker.next_id = 1 ∧
    (handleFrame (handleConnect (handleFrame (handleConnect initServer) [dA]
      640 480 cfg0 1000).1) [dFar] 640 480 cfg0 1100).2.map DetOut.id = [1] := by
  refine ⟨?_, ?_, ?_, ?_, ?_⟩ <;>
    norm_num [handleFrame, handleConnect, initServer, ObjectTracker.reset,
      ObjectTracker.update, ObjectTracker.processDetections,
      ObjectTracker.updateStep, ObjectTracker.find_closest_match,
      ObjectTracker.closestFold, ObjectTracker.scaledMaxDist,
      ObjectTracker.expire, ObjectTracker.keepTrack, ObjectTracker.init,
      alistSet, distSq, sqrtLt, cfg0, dA, dFar, ObjectDetector.mkDetection,
      pyRound1]

/-- C2, amended: every connection operates on the single module-level
tracker held in the server state, so tracker state is shared between
sessions rather than per-session: whenever any client connects,
`handleConnect` resets that one shared tracker — it unconditionally
empties the track map and restarts id allocation at 1 (keeping only the
configured matching radius) regardless of what other sessions had
accumulated in it. -/
theorem connect_resets_shared_tracker (s : ServerState) :
    (handleConnect s).tracker.next_id = 1 ∧
    (handleConnect s).tracker.tracked_objects = [] ∧
    (handleConnect s).tracker.max_distance = s.tracker.max_distance :=
  ⟨rfl, rfl, rfl⟩

/-- C5: when a detection is folded into an existing (matched) track
(`backend/tracker.py`, lines 102–125), the produced `should_speak` flag
`ss` satisfies: if the detection's similarity is below the configured
`min_similarity` then `ss` is false regardless of the other conditions;
otherwise `ss` is true exactly when the label differs from the track's
last label or `now − last_spoken_ms ≥ speak_cooldown_ms`; and the track's
`last_spoken_ms` is set to `now` exactly when `ss` is true and left
unchanged otherwise. -/
theorem matched_track_speak_spec (frame_w : ℤ) (minSim : ℚ) (cooldown now : ℤ)
    (st : TrackerState) (m : List ℕ) (os : List DetOut) (d : DetIn)
    (tid : ℕ) (tr : Track)
    (h : ObjectTracker.find_closest_match st d.centroid frame_w = some (tid, tr)) :
    ∃ ss : Bool,
      (ObjectTracker.updateStep frame_w minSim cooldown now (st, m, os) d).2.2 =
        os ++ [⟨d, tid, ss, pyCapitalize d.shape⟩] ∧
      (ss = true ↔ (minSim ≤ d.similarity ∧
        (d.label ≠ tr.last_label ∨ cooldown ≤ now - tr.last_spoken_ms))) ∧
      (d.similarity < minSim → ss = false) ∧
      alistGet?
        (ObjectTracker.updateStep frame_w minSim cooldown now
          (st, m, os) d).1.tracked_objects tid =
        some ⟨d.centroid, now, if ss then now else tr.last_spoken_ms, d.label⟩ := by
  refine ⟨decide (minSim ≤ d.similarity ∧
    (d.label ≠ tr.last_label ∨ cooldown ≤ now - tr.last_spoken_ms)), ?_, ?_, ?_, ?_⟩
  · rw [updateStep_matched_eq frame_w minSim cooldown now st m os d tid tr h]
  · simp
  · intro hlt
    simp only [decide_eq_false_iff_not]
    intro hc
    exact absurd hc.1 (not_le.mpr hlt)
  · rw [updateStep_matched_eq frame_w minSim cooldown now st m os d tid tr h]
    exact alistGet?_set_self _ _ _

/-- C5, witness: detection `dA` (similarity 85 ≥ 70, same label, 100 ms
since last spoken < 2000 ms cooldown) matched to track 1 of `stW`. -/
theorem matched_track_speak_spec_witness :
    ∃ ss : Bool,
      (ObjectTracker.updateStep 640 70 2000 1100 (stW, [], []) dA).2.2 =
        [] ++ [⟨dA, 1, ss, pyCapitalize dA.shape⟩] ∧
      (ss = true ↔ ((70 : ℚ) ≤ dA.similarity ∧
        (dA.label ≠ trW.last_label ∨ (2000 : ℤ) ≤ 1100 - trW.last_spoken_ms))) ∧
      (dA.similarity < 70 → ss = false) ∧
      alistGet?
        (ObjectTracker.updateStep 640 70 2000 1100
          (stW, [], []) dA).1.tracked_objects 1 =
        some ⟨dA.centroid, 1100, if ss then 1100 else trW.last_spoken_ms,
          dA.label⟩ :=
  matched_track_speak_spec 640 70 2000 1100 stW [] [] dA 1 trW
    (by norm_num [ObjectTracker.find_closest_match, ObjectTracker.closestFold,
      ObjectTracker.scaledMaxDist, stW, trW, dA, ObjectDetector.mkDetection,
      distSq, sqrtLt, Int.fdiv])

/-- C6: on every `ObjectTracker.update` call — including with an empty
detection list — after the detection loop, an entry of the tracker's
state survives exactly when its id was matched this frame or its
`current_time_ms − last_seen_ms` is at most 1000 ms; equivalently,
exactly the unmatched entries strictly older than 1000 ms are removed,
and entries matched this frame are never removed by the same call
(`backend/tracker.py`, lines 156–167). -/
theorem track_expiry_spec (st : TrackerState) (dets : List DetIn)
    (w h : ℤ) (cfg : Config) (now : ℤ) :
    (∀ p : ℕ × Track,
      p ∈ (ObjectTracker.update st dets w h cfg now).1.tracked_objects ↔
        (p ∈ (ObjectTracker.processDetections st dets w
            (cfg.min_similarity.getD 70) (cfg.speak_cooldown_ms.getD 2000)
            now).1.tracked_objects ∧
          (p.1 ∈ (ObjectTracker.processDetections st dets w
              (cfg.min_similarity.getD 70) (cfg.speak_cooldown_ms.getD 2000)
              now).2.1 ∨
            now - p.2.last_seen_ms ≤ 1000))) ∧
    (∀ p ∈ (ObjectTracker.processDetections st dets w
        (cfg.min_similarity.getD 70) (cfg.speak_cooldown_ms.getD 2000)
        now).1.tracked_objects,
      p.1 ∈ (ObjectTracker.processDetections st dets w
          (cfg.min_similarity.getD 70) (cfg.speak_cooldown_ms.getD 2000)
          now).2.1 →
      p ∈ (ObjectTracker.update st dets w h cfg now).1.tracked_objects) ∧
    (dets = [] →
      (ObjectTracker.update st dets w h cfg now).1.tracked_objects =
        st.tracked_objects.filter
          (fun p => decide (now - p.2.last_seen_ms ≤ 1000))) := by
  have hmem : ∀ p : ℕ × Track,
      p ∈ (ObjectTracker.update st dets w h cfg now).1.tracked_objects ↔
        (p ∈ (ObjectTracker.processDetections st dets w
            (cfg.min_similarity.getD 70) (cfg.speak_cooldown_ms.getD 2000)
            now).1.tracked_objects ∧
          (p.1 ∈ (ObjectTracker.processDetections st dets w
              (cfg.min_similarity.getD 70) (cfg.speak_cooldown_ms.getD 2000)
              now).2.1 ∨
            now - p.2.last_seen_ms ≤ 1000)) := by
    intro p
    simp only [ObjectTracker.update, ObjectTracker.expire]
    rw [List.mem_filter]
    simp [ObjectTracker.keepTrack]
  refine ⟨hmem, ?_, ?_⟩
  · intro p hp hmatched
    exact (hmem p).mpr ⟨hp, Or.inl hmatched⟩
  · intro hd
    subst hd
    simp only [ObjectTracker.update, ObjectTracker.processDetections,
      List.foldl_nil, ObjectTracker.expire]
    refine List.filter_congr ?_
    intro p hp
    simp [ObjectTracker.keepTrack]

/-- C6, witness: with no detections, at time 2500 the track of `stW` (last
seen at 1000, i.e. 1500 ms > 1000 ms ago) is expired. -/
theorem track_expiry_spec_witness :
    (ObjectTracker.update stW [] 640 480 cfg0 2500).1.tracked_objects =
      stW.tracked_objects.filter
        (fun p => decide ((2500 : ℤ) - p.2.last_seen_ms ≤ 1000)) :=
  (track_expiry_spec stW [] 640 480 cfg0 2500).2.2 rfl

/-- C7: a detection is matched to an existing track only if the Euclidean
distance from its centroid to the track's centroid is strictly less than
`max_distance × (frame_w / 640)` (expressed by `sqrtLt` on the squared
distance), and the selected track attains the minimum distance among the
tracks within that bound; `_find_closest_match` returns `None` exactly
when no track is within the bound, in which case the update step
allocates a new track carrying the detection's centroid and label under
the next sequential id (`backend/tracker.py`, lines 47–60 and 127–142). -/
theorem closest_match_spec (st : TrackerState) (c : ℤ × ℤ) (w : ℤ) :
    (∀ (tid : ℕ) (tr : Track),
      ObjectTracker.find_closest_match st c w = some (tid, tr) →
      (tid, tr) ∈ st.tracked_objects ∧
      sqrtLt (distSq c tr.centroid) (ObjectTracker.scaledMaxDist st w) = true ∧
      ∀ p ∈ st.tracked_objects,
        sqrtLt (distSq c p.2.centroid) (ObjectTracker.scaledMaxDist st w) = true →
        distSq c tr.centroid ≤ distSq c p.2.centroid) ∧
    (ObjectTracker.find_closest_match st c w = none ↔
      ∀ p ∈ st.tracked_objects,
        sqrtLt (distSq c p.2.centroid) (ObjectTracker.scaledMaxDist st w) = false) ∧
    (∀ (minSim : ℚ) (cooldown now : ℤ) (m : List ℕ) (os : List DetOut)
        (d : DetIn),
      d.centroid = c →
      ObjectTracker.find_closest_match st c w = none →
      (ObjectTracker.updateStep w minSim cooldown now (st, m, os) d).1.next_id =
        st.next_id + 1 ∧
      (ObjectTracker.updateStep w minSim cooldown now (st, m, os) d).2.2 =
        os ++ [⟨d, st.next_id, decide (minSim ≤ d.similarity),
          pyCapitalize d.shape⟩] ∧
      alistGet?
        (ObjectTracker.updateStep w minSim cooldown now
          (st, m, os) d).1.tracked_objects st.next_id =
        some ⟨d.centroid, now,
          if decide (minSim ≤ d.similarity) then now else 0, d.label⟩) := by
  refine ⟨?_, find_closest_match_none_iff st c w, ?_⟩
  · intro tid tr hf
    exact find_closest_match_spec hf
  · intro minSim cooldown now m os d hc hnone
    subst hc
    rw [updateStep_new_eq w minSim cooldown now st m os d hnone]
    exact ⟨rfl, rfl, alistGet?_set_self _ _ _⟩

/-- C7, witness: in `stW`, the query centroid (103, 102) is matched to
track 1, which is within the 60-pixel scaled radius and at minimum
distance among all in-range tracks. -/
theorem closest_match_spec_witness :
    (1, trW) ∈ stW.tracked_objects ∧
    sqrtLt (distSq (103, 102) trW.centroid)
      (ObjectTracker.scaledMaxDist stW 640) = true ∧
    ∀ p ∈ stW.tracked_objects,
      sqrtLt (distSq (103, 102) p.2.centroid)
        (ObjectTracker.scaledMaxDist stW 640) = true →
      distSq (103, 102) trW.centroid ≤ distSq (103, 102) p.2.centroid :=
  (closest_match_spec stW (103, 102) 640).1 1 trW
    (by norm_num [ObjectTracker.find_closest_match, ObjectTracker.closestFold,
      ObjectTracker.scaledMaxDist, stW, trW, distSq, sqrtLt])

theorem updateStep_inv (w : ℤ) (minSim : ℚ) (cooldown now : ℤ)
    (acc : TrackerState × List ℕ × List DetOut) (d : DetIn)
    (hinv : ∀ p ∈ acc.1.tracked_objects, p.1 < acc.1.next_id) :
    (∀ p ∈ (ObjectTracker.updateStep w minSim cooldown now
        acc d).1.tracked_objects,
      p.1 < (ObjectTracker.updateStep w minSim cooldown now acc d).1.next_id) ∧
    acc.1.next_id ≤
      (ObjectTracker.updateStep w minSim cooldown now acc d).1.next_id := by
  obtain ⟨st, m, os⟩ := acc
  rcases hf : ObjectTracker.find_closest_match st d.centroid w with - | ⟨tid, tr⟩
  · rw [updateStep_new_eq w minSim cooldown now st m os d hf]
    constructor
    · intro p hp
      rcases alistSet_mem hp with hp | hp
      · rw [hp]
        exact Nat.lt_succ_self _
      · exact Nat.lt_succ_of_lt (hinv p hp)
    · exact Nat.le_succ _
  · rw [updateStep_matched_eq w minSim cooldown now st m os d tid tr hf]
    constructor
    · intro p hp
      rcases alistSet_mem hp with hp | hp
      · rw [hp]
        exact hinv (tid, tr) (find_closest_match_spec hf).1
      · exact hinv p hp
    · exact le_refl _

theorem processDetections_inv (w : ℤ) (minSim : ℚ) (cooldown now : ℤ) :
    ∀ (dets : List DetIn) (acc : TrackerState × List ℕ × List DetOut),
      (∀ p ∈ acc.1.tracked_objects, p.1 < acc.1.next_id) →
      (∀ p ∈ (dets.foldl (ObjectTracker.updateStep w minSim cooldown now)
          acc).1.tracked_objects,
        p.1 < (dets.foldl (ObjectTracker.updateStep w minSim cooldown now)
          acc).1.next_id) ∧
      acc.1.next_id ≤
        (dets.foldl (ObjectTracker.updateStep w minSim cooldown now)
          acc).1.next_id := by
  intro dets
  induction dets with
  | nil => intro acc hacc; exact ⟨hacc, le_refl _⟩
  | cons d ds ih =>
      intro acc hacc
      rw [List.foldl_cons]
      obtain ⟨h1, h2⟩ := updateStep_inv w minSim cooldown now acc d hacc
      obtain ⟨h3, h4⟩ := ih _ h1
      exact ⟨h3, le_trans h2 h4⟩

/-- C8: within one session, track ids are allocated sequentially: the
tracker and `reset()` both start the counter at 1 with an empty track
map; a new track is assigned exactly the current counter value, which is
then incremented, while a matched track leaves the counter unchanged;
every live track id stays strictly below the counter across any
`update` call and the counter never decreases — so an id of a removed
track (strictly below every future counter value) can never be handed
out again (`backend/tracker.py`, lines 127–131 and 171–174). -/
theorem track_id_allocation_spec (st : TrackerState) (dets : List DetIn)
    (w h : ℤ) (cfg : Config) (now : ℤ) (md : ℚ) (m : List ℕ)
    (os : List DetOut) (d : DetIn) :
    ((ObjectTracker.init md).next_id = 1 ∧
      (ObjectTracker.init md).tracked_objects = []) ∧
    ((ObjectTracker.reset st).next_id = 1 ∧
      (ObjectTracker.reset st).tracked_objects = [] ∧
      (ObjectTracker.reset st).max_distance = st.max_distance) ∧
    (ObjectTracker.find_closest_match st d.centroid w = none →
      (ObjectTracker.updateStep w (cfg.min_similarity.getD 70)
          (cfg.speak_cooldown_ms.getD 2000) now (st, m, os) d).1.next_id =
        st.next_id + 1 ∧
      (ObjectTracker.updateStep w (cfg.min_similarity.getD 70)
          (cfg.speak_cooldown_ms.getD 2000) now (st, m, os) d).2.2 =
        os ++ [⟨d, st.next_id,
          decide ((cfg.min_similarity.getD 70) ≤ d.similarity),
          pyCapitalize d.shape⟩]) ∧
    (∀ (tid : ℕ) (tr : Track),
      ObjectTracker.find_closest_match st d.centroid w = some (tid, tr) →
      (ObjectTracker.updateStep w (cfg.min_similarity.getD 70)
          (cfg.speak_cooldown_ms.getD 2000) now (st, m, os) d).1.next_id =
        st.next_id) ∧
    ((∀ p ∈ st.tracked_objects, p.1 < st.next_id) →
      (∀ p ∈ (ObjectTracker.update st dets w h cfg now).1.tracked_objects,
        p.1 < (ObjectTracker.update st dets w h cfg now).1.next_id) ∧
      st.next_id ≤ (ObjectTracker.update st dets w h cfg now).1.next_id) := by
  refine ⟨⟨rfl, rfl⟩, ⟨rfl, rfl, rfl⟩, ?_, ?_, ?_⟩
  · intro hnone
    rw [updateStep_new_eq _ _ _ _ _ _ _ _ hnone]
    exact ⟨rfl, rfl⟩
  · intro tid tr hf
    rw [updateStep_matched_eq _ _ _ _ _ _ _ _ tid tr hf]
  · intro hinv
    obtain ⟨h1, h2⟩ := processDetections_inv w (cfg.min_similarity.getD 70)
      (cfg.speak_cooldown_ms.getD 2000) now dets (st, [], []) hinv
    constructor
    · intro p hp
      apply h1
      have hp' : p ∈ (ObjectTracker.processDetections st dets w
          (cfg.min_similarity.getD 70) (cfg.speak_cooldown_ms.getD 2000)
          now).1.tracked_objects.filter
            (ObjectTracker.keepTrack (ObjectTracker.processDetections st dets w
              (cfg.min_similarity.getD 70) (cfg.speak_cooldown_ms.getD 2000)
              now).2.1 now) := hp
      exact List.mem_of_mem_filter hp'
    · exact h2

/-- C8, witness: from `stW` (one live track with id 1 < counter 2), an
update with a far-away detection keeps every live id below the counter
and does not decrease the counter. -/
theorem track_id_allocation_spec_witness :
    (∀ p ∈ (ObjectTracker.update stW [dFar] 640 480 cfg0 1100).1.tracked_objects,
      p.1 < (ObjectTracker.update stW [dFar] 640 480 cfg0 1100).1.next_id) ∧
    stW.next_id ≤ (ObjectTracker.update stW [dFar] 640 480 cfg0 1100).1.next_id :=
  (track_id_allocation_spec stW [dFar] 640 480 cfg0 1100 60 [] [] dFar).2.2.2.2
    (by
      intro p hp
      have hp' : p ∈ [(1, trW)] := hp
      rw [List.mem_singleton] at hp'
      rw [hp']
      exact Nat.one_lt_two)

theorem forall₂_get? {R : DetIn → DetOut → Prop} :
    ∀ {ds : List DetIn} {os : List DetOut}, List.Forall₂ R ds os →
      ∀ i : ℕ,
        (ds.get? i = none ∧ os.get? i = none) ∨
        ∃ d o, ds.get? i = some d ∧ os.get? i = some o ∧ R d o := by
  intro ds os hrel
  induction hrel with
  | nil => intro i; left; exact ⟨rfl, rfl⟩
  | cons hdo _ ih =>
      intro i
      cases i with
      | zero => right; exact ⟨_, _, rfl, rfl, hdo⟩
      | succ j => exact ih j

theorem update_outs_rel (st : TrackerState) (dets : List DetIn) (w h : ℤ)
    (cfg : Config) (now : ℤ) :
    List.Forall₂ (fun d o => DetOut.det o = d ∧
        DetOut.spoken_text o = pyCapitalize d.shape)
      dets (ObjectTracker.update st dets w h cfg now).2 := by
  obtain ⟨tail, htail, hrel⟩ := processDetections_outs w
    (cfg.min_similarity.getD 70) (cfg.speak_cooldown_ms.getD 2000) now dets
    (st, [], [])
  have h2 : (ObjectTracker.update st dets w h cfg now).2 = tail := by
    show (dets.foldl (ObjectTracker.updateStep w (cfg.min_similarity.getD 70)
      (cfg.speak_cooldown_ms.getD 2000) now) (st, [], [])).2.2 = tail
    rw [htail]
    rfl
  rw [h2]
  exact hrel

/-- C9: the live path's spoken-text formatter ignores its color, size and
similarity arguments and returns the capitalized `shape` — which for
every detection dictionary built by `ObjectDetector.detect_objects` is
exactly the class name — and every annotated detection that
`ObjectTracker.update` emits carries `spoken_text` equal to the
capitalized `shape` of the corresponding input detection
(`backend/utils.py`, lines 255–269; `backend/detector.py`, lines
102–113; `backend/tracker.py`, lines 147–152). -/
theorem spoken_text_spec :
    (∀ (c₁ c₂ z₁ z₂ : String) (m₁ m₂ : ℚ) (s : String),
      format_spoken_text c₁ s z₁ m₁ = format_spoken_text c₂ s z₂ m₂ ∧
      format_spoken_text c₁ s z₁ m₁ = pyCapitalize s) ∧
    (∀ (x y bw bh : ℤ) (name : String) (conf : ℚ),
      (ObjectDetector.mkDetection x y bw bh name conf).shape = name ∧
      (ObjectDetector.mkDetection x y bw bh name conf).class_name = name) ∧
    (∀ (st : TrackerState) (dets : List DetIn) (w h : ℤ) (cfg : Config)
        (now : ℤ) (i : ℕ),
      ((ObjectTracker.update st dets w h cfg now).2.get? i).map
          DetOut.spoken_text =
        (dets.get? i).map (fun d => pyCapitalize d.shape)) := by
  refine ⟨fun _ _ _ _ _ _ _ => ⟨rfl, rfl⟩, fun _ _ _ _ _ _ => ⟨rfl, rfl⟩, ?_⟩
  intro st dets w h cfg now i
  rcases forall₂_get? (update_outs_rel st dets w h cfg now) i with
    ⟨hd, ho⟩ | ⟨d, o, hd, ho, hR⟩
  · rw [hd, ho]
    rfl
  · rw [hd, ho]
    simp [hR.2]

/-- C10: `ObjectTracker.update` returns exactly one annotated detection
per input detection, in input order: the output list has the input's
length and at every index the output's embedded detection record — and
hence its `bbox`, `centroid`, `label` and `similarity` — is the input
detection unchanged, with only `id`, `should_speak` and `spoken_text`
added (`backend/tracker.py`, lines 85–169). -/
theorem update_output_alignment_spec (st : TrackerState) (dets : List DetIn)
    (w h : ℤ) (cfg : Config) (now : ℤ) :
    ((ObjectTracker.update st dets w h cfg now).2.length = dets.length) ∧
    (∀ i : ℕ,
      ((ObjectTracker.update st dets w h cfg now).2.get? i).map DetOut.det =
        dets.get? i ∧
      ((ObjectTracker.update st dets w h cfg now).2.get? i).map
          (fun o => o.det.bbox) = (dets.get? i).map DetIn.bbox ∧
      ((ObjectTracker.update st dets w h cfg now).2.get? i).map
          (fun o => o.det.centroid) = (dets.get? i).map DetIn.centroid ∧
      ((ObjectTracker.update st dets w h cfg now).2.get? i).map
          (fun o => o.det.label) = (dets.get? i).map DetIn.label ∧
      ((ObjectTracker.update st dets w h cfg now).2.get? i).map
          (fun o => o.det.similarity) = (dets.get? i).map DetIn.similarity) := by
  have hrel := update_outs_rel st dets w h cfg now
  constructor
  · exact (List.Forall₂.length_eq hrel).symm
  · intro i
    rcases forall₂_get? hrel i with ⟨hd, ho⟩ | ⟨d, o, hd, ho, hR⟩
    · rw [hd, ho]
      exact ⟨rfl, rfl, rfl, rfl, rfl⟩
    · rw [hd, ho]
      simp [hR.1]
